import Mathlib

/-!
Verification of `notebooklm-podcast-automator` (Python) against its
natural-language specification, via a shallow embedding in Lean 4.

Modules embedded:
* `notebooklm_automator/links.py`        — UI-language detection, UI text map,
  adding link sources to a notebook, audio-overview generation.
* `notebooklm_automator/url_handler.py`  — URL collection from flag / file /
  stdin, Jina-reader rewrite.
* `notebooklm_automator/main.py`         — the CLI's URL-acquisition stage.
* `notebooklm_automator/core.py`         — `NotebookLMAutomator` methods
  (`download_audio`, `process_urls`, `generate_audio`,
  `process_notebooklm_project`, `_update_progress`).
* `notebooklm_automator/spotify.py`      — `SpotifyAutomator.upload_episode`
  and its `_update_progress`.

Browser interactions (Playwright) are modelled by explicit environment
records whose fields say how each external step behaves (which buttons are
visible, which waits time out, what exceptions get raised), and by action
traces recording what the automation does to the page.  Python strings are
Lean `String`s; Python's `str.startswith`, the `in` substring test, and
truthiness are modelled on the character lists underneath.
-/

/-- Python `s.startswith(pre)`: `pre` is a prefix of `s` (character-wise). -/
def pyStartswith (s pre : String) : Bool :=
  pre.data.isPrefixOf s.data

/-- Substring occurrence on character lists (Python's `needle in hay`). -/
def listIsSub (needle : List Char) : List Char → Bool
  | [] => needle.isEmpty
  | c :: rest => needle.isPrefixOf (c :: rest) || listIsSub needle rest

/-- Python `needle in hay` for strings. -/
def pyIn (needle hay : String) : Bool :=
  listIsSub needle.data hay.data

/-- Python truthiness of an optional string: `None` and `""` are falsy. -/
def pyTruthyStr : Option String → Bool
  | none => false
  | some s => s ≠ ""

/-!  ## links.py  -/

/-- Embedding of `detect_ui_language` (links.py lines 4-20).  The argument
is the value of `document.documentElement.lang`; `page.evaluate(...) or "en"`
replaces a missing or empty value by `"en"`, then `lang.startswith("ja")`
selects Japanese. -/
def detect_ui_language (docLang : Option String) : String :=
  let lang := match docLang with
    | none => "en"
    | some s => if s = "" then "en" else s
  if pyStartswith lang "ja" then "ja" else "en"

/-- Embedding of `get_ui_text_map` (links.py lines 22-54), as a lookup
function: `get_ui_text_map key lang` is the entry `ui_text[key][lang]`,
`none` standing for a `KeyError`. -/
def get_ui_text_map (key lang : String) : Option String :=
  if key = "create_notebook" then
    if lang = "en" then some "Create new notebook"
    else if lang = "ja" then some "新規作成" else none
  else if key = "add_source" then
    if lang = "en" then some "Add source"
    else if lang = "ja" then some "ソースを追加" else none
  else if key = "website" then
    if lang = "en" then some "Website"
    else if lang = "ja" then some "ウェブサイト" else none
  else if key = "youtube" then
    if lang = "en" then some "YouTube"
    else if lang = "ja" then some "YouTube" else none
  else if key = "insert" then
    if lang = "en" then some "Insert"
    else if lang = "ja" then some "挿入" else none
  else if key = "generate" then
    if lang = "en" then some "Generate"
    else if lang = "ja" then some "生成" else none
  else none

/-- Source-type selection of `add_link_sources` (links.py lines 96-100):
URLs containing `youtube.com` or `youtu.be` get the YouTube chip text,
all others the Website chip text. -/
def source_type_text (url lang : String) : Option String :=
  if pyIn "youtube.com" url || pyIn "youtu.be" url then
    get_ui_text_map "youtube" lang
  else
    get_ui_text_map "website" lang

/-- One observable interaction performed by the automation. -/
inductive PageAction where
  /-- `progress_callback(index, len(urls), url)` (links.py line 75). -/
  | progress (index total : Nat) (url : String)
  /-- Click on the locale-resolved "create notebook" button (line 84). -/
  | clickCreate (label : String)
  /-- Click on the locale-resolved "add source" button (line 91). -/
  | clickAddSource (label : String)
  /-- Click on a source-type chip (line 105). -/
  | clickChip (label : String)
  /-- Fill the URL input (line 111). -/
  | fillUrl (url : String)
  /-- Click the insert button (line 118). -/
  | clickInsert (label : String)
  /-- Wait for the progress spinner to detach (line 125). -/
  | waitSpinnerDetached
  /-- The per-item `except` handler's `print` (line 131). -/
  | errorLog (url msg : String)
  /-- Click the generate button (links.py line 151). -/
  | clickGenerate (label : String)
deriving DecidableEq, Repr

/-- Actions of one loop iteration of `add_link_sources` (links.py lines
71-128) when no external exception interrupts it: the optional progress
callback, the create/add-source button click (create exactly for index 0),
the source-type chip, the URL fill, the insert click, and the spinner wait
when a spinner is present.  A failed `ui_text` lookup (`KeyError`) is caught
by the per-item handler and logged. -/
def itemActions (index total : Nat) (url lang : String)
    (hasCb spinner : Bool) : List PageAction :=
  let progressActs : List PageAction :=
    if hasCb then [PageAction.progress index total url] else []
  match (if index = 0 then get_ui_text_map "create_notebook" lang
         else get_ui_text_map "add_source" lang) with
  | none => progressActs ++ [PageAction.errorLog url ("Error adding source " ++ url ++ ": KeyError")]
  | some btnLabel =>
    let btnAct := if index = 0 then PageAction.clickCreate btnLabel
                  else PageAction.clickAddSource btnLabel
    match source_type_text url lang with
    | none => progressActs ++ [btnAct,
        PageAction.errorLog url ("Error adding source " ++ url ++ ": KeyError")]
    | some chipLabel =>
      match get_ui_text_map "insert" lang with
      | none => progressActs ++ [btnAct, PageAction.clickChip chipLabel,
          PageAction.fillUrl url,
          PageAction.errorLog url ("Error adding source " ++ url ++ ": KeyError")]
      | some insertLabel =>
        progressActs ++ [btnAct, PageAction.clickChip chipLabel,
          PageAction.fillUrl url, PageAction.clickInsert insertLabel]
        ++ (if spinner then [PageAction.waitSpinnerDetached] else [])

/-- The `for index, url in enumerate(urls)` loop of `add_link_sources`
(links.py lines 71-131).  `faults index = some (k, e)` injects an external
exception (e.g. a Playwright timeout) with message `e` after the item's
first `k` actions; the surrounding per-item `try/except` turns it into a
log line and the loop continues with the next URL. -/
def add_link_sources_go (total : Nat) (lang : String) (hasCb : Bool)
    (spinner : Nat → Bool) (faults : Nat → Option (Nat × String)) :
    Nat → List String → List PageAction
  | _, [] => []
  | i, url :: rest =>
    (match faults i with
     | none => itemActions i total url lang hasCb (spinner i)
     | some (k, e) =>
       (itemActions i total url lang hasCb (spinner i)).take k
         ++ [PageAction.errorLog url ("Error adding source " ++ url ++ ": " ++ e)])
    ++ add_link_sources_go total lang hasCb spinner faults (i + 1) rest

/-- Embedding of `add_link_sources` (links.py lines 56-131): detect the UI
language once, then process each URL in order. -/
def add_link_sources (docLang : Option String) (urls : List String)
    (hasCb : Bool) (spinner : Nat → Bool)
    (faults : Nat → Option (Nat × String)) : List PageAction :=
  add_link_sources_go urls.length (detect_ui_language docLang) hasCb spinner
    faults 0 urls

/-- Embedding of `generate_audio_overview` (links.py lines 133-164): click
the locale-resolved generate button; any exception is caught and logged. -/
def generate_audio_overview (docLang : Option String)
    (clickFault : Option String) : List PageAction :=
  match get_ui_text_map "generate" (detect_ui_language docLang) with
  | none => [PageAction.errorLog "" "Error generating Audio Overview: KeyError"]
  | some label =>
    match clickFault with
    | some e => [PageAction.errorLog "" ("Error generating Audio Overview: " ++ e)]
    | none => [PageAction.clickGenerate label]

/-- The detected UI language is always `"en"` or `"ja"`. -/
theorem detect_ui_language_en_or_ja (docLang : Option String) :
    detect_ui_language docLang = "en" ∨ detect_ui_language docLang = "ja" := by
  unfold detect_ui_language
  rcases docLang with _ | s
  · simp
  · by_cases h : s = ""
    · simp [h]
    · simp only [h, if_false]
      split <;> simp

/-- C3 counterexample: the claim says only the exact attribute value
`"ja-JP"` selects Japanese and that the input `"ja"` selects English, but
`detect_ui_language` maps `"ja"` to Japanese as well, because the code
tests `lang.startswith("ja")`, not equality with `"ja-JP"`. -/
theorem detect_ui_language_ja_counterexample :
    detect_ui_language (some "ja") = "ja" ∧ some "ja" ≠ some "ja-JP" := by
  constructor
  · rfl
  · simp

/-- C3 (amended): the Japanese text table is selected exactly when the
document language attribute is present, and (after the empty value is
defaulted to `"en"`) starts with `"ja"`; in particular both `"ja"` and
`"ja-JP"` yield Japanese, while `"en"`, `""` and a missing attribute yield
English. -/
theorem detect_ui_language_startswith :
    (∀ s : String, detect_ui_language (some s) = "ja" ↔
      pyStartswith s "ja" = true) ∧
    detect_ui_language none = "en" ∧
    detect_ui_language (some "ja") = "ja" ∧
    detect_ui_language (some "ja-JP") = "ja" ∧
    detect_ui_language (some "en") = "en" ∧
    detect_ui_language (some "") = "en" := by
  refine ⟨?_, rfl, rfl, rfl, rfl, rfl⟩
  intro s
  unfold detect_ui_language
  by_cases h : s = ""
  · subst h
    constructor
    · intro hcontra
      simp at hcontra
      revert hcontra
      decide
    · intro hp
      revert hp
      decide
  · simp only [h, if_false]
    split
    · next hja => simp [hja]
    · next hja => simp [hja]

/-- Witness for the C3 amended theorem at the concrete input `"ja-JP"`. -/
theorem detect_ui_language_startswith_witness :
    detect_ui_language (some "ja-JP") = "ja" :=
  (detect_ui_language_startswith.1 "ja-JP").2 (by decide)

/-!  ## url_handler.py  -/

/-- The Jina Reader base URL (url_handler.py line 73). -/
def jinaBase : String := "https://r.jina.ai/"

/-- The per-URL Jina-reader rewrite of `get_urls` (url_handler.py line 74):
`f"{jina_prefix}{url}" if not url.startswith(jina_prefix) else url`. -/
def jinaRewrite (url : String) : String :=
  if pyStartswith url jinaBase then url else jinaBase ++ url

/-- The exceptions `get_urls` can raise (url_handler.py lines 30 and 69). -/
inductive PyError where
  | valueError (msg : String)
  | fileNotFoundError (msg : String)
deriving DecidableEq, Repr

/-- The source-selection part of `get_urls` (url_handler.py lines 21-62):
priority is URL flag, then file, then standard input.  `fileLines path`
is `none` when the file does not exist (`FileNotFoundError`), otherwise the
file's lines.  The flag branch splits on commas and trims; the file and
stdin branches trim each line and keep only non-empty ones. -/
def collect_urls (url_flag file_path : Option String)
    (fileLines : String → Option (List String)) (stdinLines : List String) :
    Except PyError (List String) :=
  if pyTruthyStr url_flag then
    Except.ok (((url_flag.getD "").splitOn ",").map String.trim)
  else if pyTruthyStr file_path then
    match fileLines (file_path.getD "") with
    | none => Except.error
        (PyError.fileNotFoundError ("File not found: " ++ file_path.getD ""))
    | some ls => Except.ok ((ls.map String.trim).filter (fun u => u ≠ ""))
  else
    Except.ok ((stdinLines.map String.trim).filter (fun u => u ≠ ""))

/-- Embedding of `get_urls` (url_handler.py lines 4-77): collect URLs from
the prioritised sources, drop empty entries, raise `ValueError` if nothing
remains, and finally apply the Jina-reader rewrite when enabled. -/
def get_urls (url_flag file_path : Option String)
    (fileLines : String → Option (List String)) (stdinLines : List String)
    (use_jina_reader : Bool) : Except PyError (List String) :=
  match collect_urls url_flag file_path fileLines stdinLines with
  | Except.error e => Except.error e
  | Except.ok raw =>
    let urls := raw.filter (fun u => u ≠ "")
    if urls = [] then
      Except.error (PyError.valueError
        "No URLs provided. Please provide at least one valid URL.")
    else
      Except.ok (if use_jina_reader then urls.map jinaRewrite else urls)

/-!  ## main.py  -/

/-- Outcome of the CLI's URL-acquisition stage. -/
inductive UrlStage where
  | proceed (urls : List String)
  | exitWith (code : Nat)
deriving DecidableEq, Repr

/-- Embedding of the URL-acquisition stage of `run_automation`
(main.py lines 49-74): both `ValueError` and `FileNotFoundError` from
`get_urls` are caught, an error message is printed, and the process exits
with status 1; otherwise the URL list is handed to the automation. -/
def run_automation_url_stage (url_flag file_path : Option String)
    (fileLines : String → Option (List String)) (stdinLines : List String)
    (use_jina_reader : Bool) : UrlStage :=
  match get_urls url_flag file_path fileLines stdinLines use_jina_reader with
  | Except.ok l => UrlStage.proceed l
  | Except.error _ => UrlStage.exitWith 1

/-- A list is always a prefix of itself extended on the right. -/
theorem isPrefixOf_append_self (l₁ l₂ : List Char) :
    l₁.isPrefixOf (l₁ ++ l₂) = true := by
  induction l₁ with
  | nil => simp [List.isPrefixOf]
  | cons a as ih => simp [List.isPrefixOf, ih]

/-- Appending the Jina base in front always yields a string that starts
with the Jina base. -/
theorem pyStartswith_jinaBase_append (v : String) :
    pyStartswith (jinaBase ++ v) jinaBase = true := by
  have hdata : (jinaBase ++ v).data = jinaBase.data ++ v.data := rfl
  unfold pyStartswith
  rw [hdata]
  exact isPrefixOf_append_self jinaBase.data v.data

/-- C7: the Jina-reader rewrite applied by `get_urls` is idempotent; a URL
already starting with `https://r.jina.ai/` is left unchanged, any other URL
gets exactly that base prepended, and in particular
`https://example.com` becomes `https://r.jina.ai/https://example.com`. -/
theorem jina_rewrite_idempotent (u : String) :
    jinaRewrite (jinaRewrite u) = jinaRewrite u ∧
    (pyStartswith u jinaBase = true → jinaRewrite u = u) ∧
    (pyStartswith u jinaBase = false → jinaRewrite u = jinaBase ++ u) ∧
    jinaRewrite "https://example.com" =
      "https://r.jina.ai/https://example.com" := by
  refine ⟨?_, ?_, ?_, by decide⟩
  · by_cases h : pyStartswith u jinaBase
    · simp [jinaRewrite, h]
    · simp [jinaRewrite, h, pyStartswith_jinaBase_append u]
  · intro h
    simp [jinaRewrite, h]
  · intro h
    simp [jinaRewrite, h]

/-- Witness for C7 at the concrete inputs `https://example.com` (not yet
prefixed) and `https://r.jina.ai/x` (already prefixed). -/
theorem jina_rewrite_idempotent_witness :
    jinaRewrite "https://example.com" =
      "https://r.jina.ai/" ++ "https://example.com" ∧
    jinaRewrite "https://r.jina.ai/x" = "https://r.jina.ai/x" :=
  ⟨(jina_rewrite_idempotent "https://example.com").2.2.1 (by decide),
   (jina_rewrite_idempotent "https://r.jina.ai/x").2.1 (by decide)⟩

/-- C9: if `get_urls` returns normally the returned list is non-empty;
if, after trimming and discarding empty entries, no URL remains from the
selected source, `get_urls` raises `ValueError`; and whenever `get_urls`
raises, the CLI's URL stage exits with status 1. -/
theorem get_urls_nonempty_guarantee (url_flag file_path : Option String)
    (fileLines : String → Option (List String)) (stdinLines : List String)
    (use_jina_reader : Bool) :
    (∀ l, get_urls url_flag file_path fileLines stdinLines use_jina_reader =
        Except.ok l → l ≠ []) ∧
    (∀ raw, collect_urls url_flag file_path fileLines stdinLines =
        Except.ok raw → raw.filter (fun u => u ≠ "") = [] →
      get_urls url_flag file_path fileLines stdinLines use_jina_reader =
        Except.error (PyError.valueError
          "No URLs provided. Please provide at least one valid URL.")) ∧
    (∀ e, get_urls url_flag file_path fileLines stdinLines use_jina_reader =
        Except.error e →
      run_automation_url_stage url_flag file_path fileLines stdinLines
        use_jina_reader = UrlStage.exitWith 1) := by
  refine ⟨?_, ?_, ?_⟩
  · intro l hl
    unfold get_urls at hl
    rcases hc : collect_urls url_flag file_path fileLines stdinLines with e | raw
    · rw [hc] at hl
      exact absurd hl (by simp)
    · rw [hc] at hl
      dsimp only at hl
      split at hl
      · exact absurd hl (by simp)
      · next hne =>
        simp only [Except.ok.injEq] at hl
        subst hl
        cases use_jina_reader
        · simpa using hne
        · simp only [if_true]
          intro hmap
          exact hne (List.map_eq_nil_iff.mp hmap)
  · intro raw hc hf
    unfold get_urls
    rw [hc]
    dsimp only
    rw [if_pos hf]
  · intro e he
    unfold run_automation_url_stage
    rw [he]

/-- Witness for C9 at a concrete input: no URL flag, no file, and empty
standard input yield `ValueError`, and the CLI exits with status 1. -/
theorem get_urls_nonempty_guarantee_witness :
    get_urls none none (fun _ => none) [] false =
      Except.error (PyError.valueError
        "No URLs provided. Please provide at least one valid URL.") ∧
    run_automation_url_stage none none (fun _ => none) [] false =
      UrlStage.exitWith 1 := by
  have h := get_urls_nonempty_guarantee none none (fun _ => none) [] false
  have h1 := h.2.1 [] rfl rfl
  exact ⟨h1, h.2.2 _ h1⟩

/-!  ## core.py and spotify.py  -/

/-- Embedding of `NotebookLMAutomator._update_progress` (core.py lines
356-371): when a callback is present it receives the message and the
percentage clamped by `min(max(progress, 0), 100)`; the result records the
invocation (`none` = no callback, hence no invocation). -/
def NotebookLMAutomator.update_progress (hasCb : Bool) (message : String)
    (progress : Int) : Option (String × Int) :=
  if hasCb then some (message, min (max progress 0) 100) else none

/-- Embedding of `SpotifyAutomator._update_progress` (spotify.py lines
157-172): the percentage is forwarded to the callback unchanged (no
clamping in this copy of the helper). -/
def SpotifyAutomator.update_progress (hasCb : Bool) (message : String)
    (progress : Int) : Option (String × Int) :=
  if hasCb then some (message, progress) else none

/-- A Python exception as observed by `upload_episode`'s handlers:
whether it is a `PlaywrightError`, and its message. -/
structure PyExn where
  isPlaywrightError : Bool
  msg : String
deriving DecidableEq, Repr

/-- The error message built by the `except` clauses of `upload_episode`
(spotify.py lines 67-72). -/
def spotifyErrorMessage (e : PyExn) : String :=
  if e.isPlaywrightError then
    "Playwright error during Spotify upload: " ++ e.msg
  else
    "Unexpected error during Spotify upload: " ++ e.msg

/-- Environment for `upload_episode`: which of the four steps (navigate,
upload file, fill details, publish) raises, and with what exception. -/
structure SpotifyEnv where
  navigateFault : Option PyExn
  uploadFileFault : Option PyExn
  fillDetailsFault : Option PyExn
  publishFault : Option PyExn
deriving DecidableEq, Repr

/-- Embedding of `SpotifyAutomator.upload_episode` (spotify.py lines
29-75): progress 0 is reported, the four steps run in order (the first
fault aborts with an error message), and on success progress 100 is
reported.  The second component lists the `(message, percentage)` pairs
passed to the progress callback.  The file path, title and description do
not influence which step fails (that is the environment's role). -/
def SpotifyAutomator.upload_episode (env : SpotifyEnv) (hasCb : Bool)
    (_audio_file_path _title _description : String) :
    (Bool × String) × List (String × Int) :=
  let startCalls :=
    (SpotifyAutomator.update_progress hasCb
      "Starting Spotify upload process..." 0).toList
  match env.navigateFault with
  | some e => ((false, spotifyErrorMessage e), startCalls)
  | none =>
    match env.uploadFileFault with
    | some e => ((false, spotifyErrorMessage e), startCalls)
    | none =>
      match env.fillDetailsFault with
      | some e => ((false, spotifyErrorMessage e), startCalls)
      | none =>
        match env.publishFault with
        | some e => ((false, spotifyErrorMessage e), startCalls)
        | none =>
          ((true, "Successfully uploaded episode to Spotify"),
            startCalls ++ (SpotifyAutomator.update_progress hasCb
              "Episode upload completed successfully!" 100).toList)

/-- Environment for `download_audio`: how each Playwright interaction of
core.py lines 157-234 behaves.  `Except.error e` models a raised exception
with message `e` (e.g. a timeout); the Booleans model `is_visible()`. -/
structure PageEnv where
  gotoResult : Except String Unit
  titleResult : Except String String
  summaryResult : Except String String
  loadButtonVisible : Bool
  waitPlayAfterLoad : Except String Unit
  waitPlayResult : Except String Unit
  optionsVisible : Bool
  downloadLinkVisible : Bool
  hrefAttr : Option String
  tempDir : String
  ulid : String
  downloadResult : Except String Unit

/-- The `try` body of `download_audio` (core.py lines 157-236).
`Except.ok r` is a `return r`; `Except.error e` is an exception escaping to
the `except` clause at line 238. -/
def NotebookLMAutomator.download_audio_body (env : PageEnv)
    (output_dir : Option String) :
    Except String (Bool × String × String × String) :=
  match env.gotoResult with
  | Except.error e => Except.error e
  | Except.ok _ =>
    match env.titleResult with
    | Except.error e => Except.error e
    | Except.ok title =>
      match env.summaryResult with
      | Except.error e => Except.error e
      | Except.ok description =>
        match (if env.loadButtonVisible then env.waitPlayAfterLoad
               else Except.ok ()) with
        | Except.error e => Except.error e
        | Except.ok _ =>
          match env.waitPlayResult with
          | Except.error e => Except.error e
          | Except.ok _ =>
            if env.optionsVisible = false then
              Except.ok (false, "Could not find audio options button", "", "")
            else if env.downloadLinkVisible = false then
              Except.ok (false, "Could not find download link in the menu", "", "")
            else
              match env.hrefAttr with
              | none =>
                Except.ok (false, "Download link has no href attribute", "", "")
              | some _ =>
                let dir := match output_dir with
                  | none => env.tempDir
                  | some d => d
                let file_path := dir ++ "/" ++ env.ulid ++ ".mp3"
                match env.downloadResult with
                | Except.error e => Except.error e
                | Except.ok _ => Except.ok (true, file_path, title, description)

/-- Embedding of `NotebookLMAutomator.download_audio` (core.py lines
143-239): when no page is connected the not-connected failure tuple is
returned; otherwise the `try` body runs and any exception is turned into
`(False, "Error downloading audio: ...", "", "")`.  The function is total:
it always returns a four-tuple and never raises. -/
def NotebookLMAutomator.download_audio (connected : Bool) (env : PageEnv)
    (output_dir : Option String) : Bool × String × String × String :=
  if connected = false then
    (false, "Not connected to NotebookLM. Call connect() first.", "", "")
  else
    match NotebookLMAutomator.download_audio_body env output_dir with
    | Except.ok r => r
    | Except.error e => (false, "Error downloading audio: " ++ e, "", "")

/-- Embedding of `NotebookLMAutomator.process_urls` (core.py lines 97-115):
raises `ValueError` when no page is connected, otherwise runs
`add_link_sources`. -/
def NotebookLMAutomator.process_urls (connected : Bool)
    (docLang : Option String) (urls : List String) (hasCb : Bool)
    (spinner : Nat → Bool) (faults : Nat → Option (Nat × String)) :
    Except PyError (List PageAction) :=
  if connected = false then
    Except.error (PyError.valueError
      "Not connected to NotebookLM. Call connect() first.")
  else
    Except.ok (add_link_sources docLang urls hasCb spinner faults)

/-- Embedding of `NotebookLMAutomator.generate_audio` (core.py lines
117-128): raises `ValueError` when no page is connected, otherwise runs
`generate_audio_overview` (which catches all its own exceptions). -/
def NotebookLMAutomator.generate_audio (connected : Bool)
    (docLang : Option String) (clickFault : Option String) :
    Except PyError (List PageAction) :=
  if connected = false then
    Except.error (PyError.valueError
      "Not connected to NotebookLM. Call connect() first.")
  else
    Except.ok (generate_audio_overview docLang clickFault)

/-- Python tuple unpacking `success, audio_result = t` where `t` has four
elements (core.py line 317): assigning a four-element tuple to two targets
raises `ValueError: too many values to unpack (expected 2)`. -/
def unpack2 (t : Bool × String × String × String) :
    Except String (Bool × String) :=
  match t with
  | _ => Except.error "too many values to unpack (expected 2)"

/-- The result dictionary built by `process_notebooklm_project`
(core.py lines 306-312). -/
structure ProjectResult where
  project_url : String
  success : Bool
  audio_file : Option String
  spotify_uploaded : Bool
  error : Option String
deriving DecidableEq, Repr

/-- Python `Path(p).stem`: the final path component without its last
suffix (a leading dot alone does not start a suffix). -/
def pathStem (p : String) : String :=
  let base := (p.splitOn "/").getLastD ""
  let parts := base.splitOn "."
  if parts.length ≤ 1 then base
  else if pyStartswith base "." ∧ parts.length = 2 then base
  else String.intercalate "." parts.dropLast

/-- Python `s.title()`: the first letter of each alphabetic run is
uppercased and the rest lowercased. -/
def pyTitle (s : String) : String :=
  String.mk ((s.data.foldl (fun (acc : List Char × Bool) c =>
    if c.isAlpha then
      ((if acc.2 then c.toLower else c.toUpper) :: acc.1, true)
    else (c :: acc.1, false)) ([], false)).1.reverse)

/-- Embedding of `NotebookLMAutomator.process_notebooklm_project`
(core.py lines 287-354).  The `try` body first calls `_update_progress`
(which never raises) and then executes
`success, audio_result = self.download_audio(project_url, output_dir)`;
the unpacking of the four-tuple into two targets raises `ValueError`,
which the `except Exception` clause at line 352 stores in
`result["error"]`.  The remainder of the body is embedded as written
(branch on the flag, then the optional Spotify upload). -/
def NotebookLMAutomator.process_notebooklm_project (connected : Bool)
    (env : PageEnv) (senv : SpotifyEnv) (hasCb : Bool) (project_url : String)
    (spotify_upload : Bool) (output_dir : Option String) : ProjectResult :=
  let result : ProjectResult :=
    { project_url := project_url, success := false, audio_file := none,
      spotify_uploaded := false, error := none }
  match unpack2 (NotebookLMAutomator.download_audio connected env output_dir) with
  | Except.error e => { result with error := some e }
  | Except.ok (success, audio_result) =>
    if success = false then { result with error := some audio_result }
    else
      let result := { result with audio_file := some audio_result }
      if spotify_upload then
        let title := pyTitle ((pathStem audio_result).replace "_" " ")
        match (SpotifyAutomator.upload_episode senv hasCb audio_result title
            ("Automatically uploaded from NotebookLM: " ++ project_url)).1 with
        | (true, _) => { result with spotify_uploaded := true, success := true }
        | (false, m) =>
          { result with error := some ("Spotify upload failed: " ++ m) }
      else { result with success := true }

/-- C1 (code bug): `process_notebooklm_project` unpacks the four-tuple
returned by `download_audio` into only two variables (core.py line 317),
so every call raises `ValueError: too many values to unpack (expected 2)`
inside the `try`; the call site never receives the four-tuple and never
branches on the success flag — the result always carries the unpacking
error and `success = False`. -/
theorem process_project_unpack_valueerror (connected : Bool) (env : PageEnv)
    (senv : SpotifyEnv) (hasCb : Bool) (project_url : String)
    (spotify_upload : Bool) (output_dir : Option String) :
    (NotebookLMAutomator.process_notebooklm_project connected env senv hasCb
        project_url spotify_upload output_dir).error =
      some "too many values to unpack (expected 2)" ∧
    (NotebookLMAutomator.process_notebooklm_project connected env senv hasCb
        project_url spotify_upload output_dir).success = false :=
  ⟨rfl, rfl⟩

/-- C5: when navigation, title and summary retrieval and the audio-player
waits succeed but the audio options button is not visible,
`download_audio` returns `(False, "Could not find audio options button",
"", "")` with a non-empty message, rather than raising (the embedding is a
total function: everything the `try` body raises is caught at core.py line
238). -/
theorem download_audio_options_missing (env : PageEnv)
    (output_dir : Option String) (t s : String)
    (hg : env.gotoResult = Except.ok ())
    (ht : env.titleResult = Except.ok t)
    (hs : env.summaryResult = Except.ok s)
    (hl : env.loadButtonVisible = true → env.waitPlayAfterLoad = Except.ok ())
    (hw : env.waitPlayResult = Except.ok ())
    (ho : env.optionsVisible = false) :
    NotebookLMAutomator.download_audio true env output_dir =
      (false, "Could not find audio options button", "", "") ∧
    "Could not find audio options button" ≠ "" := by
  constructor
  · cases hlb : env.loadButtonVisible
    · simp [NotebookLMAutomator.download_audio,
        NotebookLMAutomator.download_audio_body, hg, ht, hs, hw, ho, hlb]
    · simp [NotebookLMAutomator.download_audio,
        NotebookLMAutomator.download_audio_body, hg, ht, hs, hw, ho, hlb,
        hl hlb]
  · simp

/-- Witness for C5 at a concrete environment in which the options button
is invisible. -/
theorem download_audio_options_missing_witness :
    NotebookLMAutomator.download_audio true
      { gotoResult := Except.ok (), titleResult := Except.ok "T",
        summaryResult := Except.ok "S", loadButtonVisible := true,
        waitPlayAfterLoad := Except.ok (), waitPlayResult := Except.ok (),
        optionsVisible := false, downloadLinkVisible := false,
        hrefAttr := none, tempDir := "/tmp", ulid := "01ARZ",
        downloadResult := Except.ok () } none =
      (false, "Could not find audio options button", "", "") ∧
    "Could not find audio options button" ≠ "" :=
  download_audio_options_missing _ none "T" "S" rfl rfl rfl (fun _ => rfl)
    rfl rfl

/-- C10: with no page connected, `download_audio` returns the
not-connected failure four-tuple instead of raising, while `process_urls`
and `generate_audio` raise `ValueError` with the same message — the two
halves of the interface handle the same precondition violation
differently. -/
theorem not_connected_asymmetry (env : PageEnv) (output_dir : Option String)
    (docLang : Option String) (urls : List String) (hasCb : Bool)
    (spinner : Nat → Bool) (faults : Nat → Option (Nat × String))
    (clickFault : Option String) :
    NotebookLMAutomator.download_audio false env output_dir =
      (false, "Not connected to NotebookLM. Call connect() first.", "", "") ∧
    NotebookLMAutomator.process_urls false docLang urls hasCb spinner faults =
      Except.error (PyError.valueError
        "Not connected to NotebookLM. Call connect() first.") ∧
    NotebookLMAutomator.generate_audio false docLang clickFault =
      Except.error (PyError.valueError
        "Not connected to NotebookLM. Call connect() first.") :=
  ⟨rfl, rfl, rfl⟩

/-- C2: every percentage handed to a progress callback lies in [0, 100].
`NotebookLMAutomator._update_progress` clamps any internally computed
value (-5 becomes 0, 140 becomes 100), and every progress-callback call
site in core.py routes through it; the only other invoker,
`SpotifyAutomator._update_progress`, is called by `upload_episode`
exclusively with the literal percentages 0 and 100. -/
theorem progress_percentage_in_range :
    (∀ (hasCb : Bool) (msg : String) (p : Int),
      ∀ c ∈ NotebookLMAutomator.update_progress hasCb msg p,
        0 ≤ c.2 ∧ c.2 ≤ 100) ∧
    (∀ (env : SpotifyEnv) (hasCb : Bool) (path title description : String),
      ∀ c ∈ (SpotifyAutomator.upload_episode env hasCb path title
          description).2, 0 ≤ c.2 ∧ c.2 ≤ 100) ∧
    NotebookLMAutomator.update_progress true "m" 140 = some ("m", 100) ∧
    NotebookLMAutomator.update_progress true "m" (-5) = some ("m", 0) := by
  refine ⟨?_, ?_, rfl, rfl⟩
  · intro hasCb msg p c hc
    cases hasCb
    · simp [NotebookLMAutomator.update_progress] at hc
    · simp only [NotebookLMAutomator.update_progress, if_true,
        Option.mem_def, Option.some.injEq] at hc
      subst hc
      exact ⟨le_min (le_max_right p 0) (by norm_num), min_le_right _ _⟩
  · intro env hasCb path title description c hc
    rcases env with ⟨nav, up, fill, pub⟩
    cases nav <;> cases up <;> cases fill <;> cases pub <;> cases hasCb <;>
      simp only [SpotifyAutomator.upload_episode,
        SpotifyAutomator.update_progress, if_true, if_false, Option.toList,
        List.append_nil, List.nil_append, List.mem_append,
        List.mem_singleton, List.not_mem_nil, List.mem_cons, or_false,
        false_or] at hc <;>
      first
        | (rcases hc with rfl | rfl <;> exact ⟨by decide, by decide⟩)
        | exact absurd hc (by simp)

/-- Witness for C2: concrete invocations — the Spotify helper's actual
call with percentage 0, and the core helper clamping 140 to 100. -/
theorem progress_percentage_in_range_witness :
    (0:Int) ≤ (0:Int) ∧ (0:Int) ≤ 100 ∧ (0:Int) ≤ 100 ∧ (100:Int) ≤ 100 := by
  have h1 := progress_percentage_in_range.2.1 ⟨none, none, none, none⟩ true
    "p" "t" "d" ("Starting Spotify upload process...", 0) (by decide)
  have h2 := progress_percentage_in_range.1 true "m" 140 ("m", 100) (by decide)
  exact ⟨h1.1, h1.2, h2.1, h2.2⟩

/-!  ## Trace properties of add_link_sources (C4, C6, C8)  -/

/-- Recogniser for create-notebook clicks. -/
def isCreateClick : PageAction → Bool
  | PageAction.clickCreate _ => true
  | _ => false

/-- Recogniser for add-source clicks. -/
def isAddSourceClick : PageAction → Bool
  | PageAction.clickAddSource _ => true
  | _ => false

/-- One loop iteration clicks the create button exactly when its index
is 0 (for a detected language). -/
theorem itemActions_countP_isCreate (index total : Nat) (url lang : String)
    (hasCb spinner : Bool) (hlang : lang = "en" ∨ lang = "ja") :
    (itemActions index total url lang hasCb spinner).countP isCreateClick =
      if index = 0 then 1 else 0 := by
  rcases hlang with rfl | rfl <;>
    by_cases hi : index = 0 <;>
      cases hcond : (pyIn "youtube.com" url || pyIn "youtu.be" url) <;>
        cases hasCb <;> cases spinner <;>
          simp [itemActions, source_type_text, get_ui_text_map, hi, hcond,
            List.countP_cons, List.countP_append, isCreateClick]

/-- One loop iteration clicks the add-source button exactly when its index
is not 0 (for a detected language). -/
theorem itemActions_countP_isAddSource (index total : Nat) (url lang : String)
    (hasCb spinner : Bool) (hlang : lang = "en" ∨ lang = "ja") :
    (itemActions index total url lang hasCb spinner).countP isAddSourceClick =
      if index = 0 then 0 else 1 := by
  rcases hlang with rfl | rfl <;>
    by_cases hi : index = 0 <;>
      cases hcond : (pyIn "youtube.com" url || pyIn "youtu.be" url) <;>
        cases hasCb <;> cases spinner <;>
          simp [itemActions, source_type_text, get_ui_text_map, hi, hcond,
            List.countP_cons, List.countP_append, isAddSourceClick]

/-- In a fault-free run the loop performs one create click when it starts
at index 0 on a non-empty list, and none otherwise. -/
theorem go_countP_isCreate (total : Nat) (lang : String) (hasCb : Bool)
    (spinner : Nat → Bool) (hlang : lang = "en" ∨ lang = "ja")
    (urls : List String) :
    ∀ i : Nat,
      (add_link_sources_go total lang hasCb spinner (fun _ => none) i
          urls).countP isCreateClick =
        if i = 0 ∧ urls ≠ [] then 1 else 0 := by
  induction urls with
  | nil => intro i; simp [add_link_sources_go]
  | cons u rest ih =>
    intro i
    simp only [add_link_sources_go]
    rw [List.countP_append,
      itemActions_countP_isCreate i total u lang hasCb (spinner i) hlang,
      ih (i + 1)]
    by_cases hi : i = 0 <;> simp [hi]

/-- In a fault-free run starting at index 0 the loop performs exactly
`N - 1` add-source clicks; starting later, one per item. -/
theorem go_countP_isAddSource (total : Nat) (lang : String) (hasCb : Bool)
    (spinner : Nat → Bool) (hlang : lang = "en" ∨ lang = "ja")
    (urls : List String) :
    ∀ i : Nat,
      (add_link_sources_go total lang hasCb spinner (fun _ => none) i
          urls).countP isAddSourceClick =
        if i = 0 then urls.length - 1 else urls.length := by
  induction urls with
  | nil => intro i; simp [add_link_sources_go]
  | cons u rest ih =>
    intro i
    simp only [add_link_sources_go]
    rw [List.countP_append,
      itemActions_countP_isAddSource i total u lang hasCb (spinner i) hlang,
      ih (i + 1)]
    by_cases hi : i = 0
    · simp [hi]
    · simp only [if_neg hi, if_neg (by omega : ¬(i + 1 = 0)),
        List.length_cons]
      omega

/-- The item at index 0 contains the create click with the looked-up
locale label. -/
theorem itemActions_head_create (total : Nat) (url lang : String)
    (hasCb spinner : Bool) (lbl : String)
    (hlang : lang = "en" ∨ lang = "ja")
    (hlbl : get_ui_text_map "create_notebook" lang = some lbl) :
    PageAction.clickCreate lbl ∈ itemActions 0 total url lang hasCb spinner := by
  rcases hlang with rfl | rfl <;>
    simp only [get_ui_text_map, if_true, if_false] at hlbl <;>
    cases hlbl <;>
      cases hcond : (pyIn "youtube.com" url || pyIn "youtu.be" url) <;>
        cases hasCb <;> cases spinner <;>
          simp [itemActions, source_type_text, get_ui_text_map, hcond]

/-- C4: for a non-empty list of N URLs, a fault-free `add_link_sources`
run performs exactly one create-notebook click — for the item at index 0,
with the locale-resolved label — and exactly N-1 add-source clicks, one
for each item at indices 1..N-1. -/
theorem add_link_sources_create_then_add (docLang : Option String)
    (urls : List String) (hasCb : Bool) (spinner : Nat → Bool)
    (h : urls ≠ []) :
    (add_link_sources docLang urls hasCb spinner (fun _ => none)).countP
        isCreateClick = 1 ∧
    (add_link_sources docLang urls hasCb spinner (fun _ => none)).countP
        isAddSourceClick = urls.length - 1 ∧
    ∃ lbl, get_ui_text_map "create_notebook" (detect_ui_language docLang) =
        some lbl ∧
      PageAction.clickCreate lbl ∈
        add_link_sources docLang urls hasCb spinner (fun _ => none) := by
  have hlang := detect_ui_language_en_or_ja docLang
  refine ⟨?_, ?_, ?_⟩
  · unfold add_link_sources
    rw [go_countP_isCreate urls.length (detect_ui_language docLang) hasCb
      spinner hlang urls 0]
    simp [h]
  · unfold add_link_sources
    rw [go_countP_isAddSource urls.length (detect_ui_language docLang) hasCb
      spinner hlang urls 0]
    simp
  · obtain ⟨u, rest, rfl⟩ := List.exists_cons_of_ne_nil h
    have hlbl : ∃ lbl, get_ui_text_map "create_notebook"
        (detect_ui_language docLang) = some lbl := by
      rcases hlang with hl | hl <;> rw [hl] <;> exact ⟨_, rfl⟩
    obtain ⟨lbl, hlbl⟩ := hlbl
    refine ⟨lbl, hlbl, ?_⟩
    unfold add_link_sources
    simp only [add_link_sources_go]
    exact List.mem_append_left _
      (itemActions_head_create _ u _ hasCb (spinner 0) lbl hlang hlbl)

/-- Witness for C4 on a concrete two-URL list. -/
theorem add_link_sources_create_then_add_witness :
    (add_link_sources none ["https://a.example", "https://b.example"] true
        (fun _ => false) (fun _ => none)).countP isCreateClick = 1 ∧
    (add_link_sources none ["https://a.example", "https://b.example"] true
        (fun _ => false) (fun _ => none)).countP isAddSourceClick =
      (["https://a.example", "https://b.example"] : List String).length - 1 ∧
    ∃ lbl, get_ui_text_map "create_notebook" (detect_ui_language none) =
        some lbl ∧
      PageAction.clickCreate lbl ∈
        add_link_sources none ["https://a.example", "https://b.example"] true
          (fun _ => false) (fun _ => none) :=
  add_link_sources_create_then_add none
    ["https://a.example", "https://b.example"] true (fun _ => false)
    (by simp)

/-- C6: an exception while processing one URL is caught at the per-item
boundary and logged, and every later URL is still processed: for three
URLs where item 2 (index 1) raises after `k` actions, the trace is the
complete item-0 actions, then the truncated item-1 actions followed by the
error log, then the complete item-2 actions. -/
theorem add_link_sources_fault_isolation (docLang : Option String)
    (u1 u2 u3 : String) (hasCb : Bool) (spinner : Nat → Bool)
    (faults : Nat → Option (Nat × String)) (k : Nat) (e : String)
    (h0 : faults 0 = none) (h1 : faults 1 = some (k, e))
    (h2 : faults 2 = none) :
    add_link_sources docLang [u1, u2, u3] hasCb spinner faults =
      itemActions 0 3 u1 (detect_ui_language docLang) hasCb (spinner 0) ++
      ((itemActions 1 3 u2 (detect_ui_language docLang) hasCb
          (spinner 1)).take k ++
        [PageAction.errorLog u2 ("Error adding source " ++ u2 ++ ": " ++ e)]) ++
      itemActions 2 3 u3 (detect_ui_language docLang) hasCb (spinner 2) := by
  unfold add_link_sources
  simp [add_link_sources_go, h0, h1, h2, List.append_assoc]

/-- Witness for C6: concrete URLs with a fault injected on the middle
item only. -/
theorem add_link_sources_fault_isolation_witness :
    add_link_sources none ["u1", "u2", "u3"] false (fun _ => false)
        (fun i => if i = 1 then some (2, "timeout") else none) =
      itemActions 0 3 "u1" (detect_ui_language none) false false ++
      ((itemActions 1 3 "u2" (detect_ui_language none) false false).take 2 ++
        [PageAction.errorLog "u2"
          ("Error adding source " ++ "u2" ++ ": " ++ "timeout")]) ++
      itemActions 2 3 "u3" (detect_ui_language none) false false :=
  add_link_sources_fault_isolation none "u1" "u2" "u3" false (fun _ => false)
    (fun i => if i = 1 then some (2, "timeout") else none) 2 "timeout"
    rfl rfl rfl

/-- C8: a URL gets the YouTube chip exactly when it contains `youtube.com`
or `youtu.be`, and the Website chip otherwise; in particular
`https://youtu.be/abc123` is video-type and `https://example.com/page` is
generic. -/
theorem youtube_classification :
    (∀ url lang, lang = "en" ∨ lang = "ja" →
      (source_type_text url lang = get_ui_text_map "youtube" lang ↔
        (pyIn "youtube.com" url || pyIn "youtu.be" url) = true)) ∧
    source_type_text "https://youtu.be/abc123" "en" = some "YouTube" ∧
    source_type_text "https://example.com/page" "en" = some "Website" := by
  refine ⟨?_, by decide, by decide⟩
  intro url lang hlang
  rcases hlang with rfl | rfl <;>
    cases hcond : (pyIn "youtube.com" url || pyIn "youtu.be" url) <;>
      simp [source_type_text, hcond, get_ui_text_map]

/-- Witness for C8: the classification theorem applied to the concrete
video URL. -/
theorem youtube_classification_witness :
    (pyIn "youtube.com" "https://youtu.be/abc123" ||
      pyIn "youtu.be" "https://youtu.be/abc123") = true :=
  (youtube_classification.1 "https://youtu.be/abc123" "en" (Or.inl rfl)).1
    (by decide)
